import Mathlib

/-!
Verification of the SwervinMervin pseudo-3D road-segment renderer
(`swervin_mervin/segment.py`).

The segment code is Python 2 (its sibling `sprite.py` uses `dict.has_key`),
so `/` on two integers is floor division and `round` rounds half away from
zero.  Python floats are idealised as rationals (`ℚ`); screen coordinates,
which the code rounds to whole pixels, are carried as integers (`ℤ`).
Python's `ZeroDivisionError` on `CAMERA_DEPTH / camera.z` with `camera.z = 0`
and the `KeyError` raised when a render/ignore operation reads `camera` or
`screen` sub-dictionaries before `project` has populated them are both
modelled by `Option`: `none` means the Python call raises instead of
returning.  Settings (`settings.py` is an external collaborator supplied at
startup) are a record of constants passed explicitly.
-/

namespace SwervinMervin

/-- Colours are opaque tokens; the renderer never inspects them. -/
abbrev Colour := Nat

/-- Palette record resolved once at construction: `s.COLOURS[palette]`. -/
structure Colours where
  road : Colour
  grass : Colour
  footpath : Colour
  line : Colour
  deriving DecidableEq

/-- Configuration constants from `settings`, immutable for a session. -/
structure Consts where
  CAMERA_DEPTH : ℚ
  CAMERA_HEIGHT : ℚ
  SEGMENT_HEIGHT : ℚ
  ROAD_WIDTH : ℚ
  LANES : ℕ
  RUMBLE_LENGTH : ℕ
  DIMENSIONS : ℕ × ℕ
  gutter : Colour
  deriving DecidableEq

/-- The `world` sub-dictionary of a line: `x` is optional (read with
`.get("x", 0)`; `__initialize_line` never stores it), `y` and `z` are always
set by the constructor. -/
structure World where
  x : Option ℚ
  y : ℚ
  z : ℚ
  deriving DecidableEq

/-- The `camera` sub-dictionary of a line, populated by `__project_line`. -/
structure Camera where
  x : ℚ
  y : ℚ
  z : ℚ
  deriving DecidableEq

/-- The `screen` sub-dictionary of a line, populated by `__project_line`:
`s` is the perspective scale, `x`/`y`/`w` are rounded pixel values. -/
structure Screen where
  s : ℚ
  x : ℤ
  y : ℤ
  w : ℤ
  deriving DecidableEq

/-- One boundary line of a segment.  `camera`/`screen` are `none` until
`project` runs (reading them raises a `KeyError` in the Python). -/
structure Line where
  world : World
  camera : Option Camera
  screen : Option Screen
  deriving DecidableEq

/-- A track segment.  Sprites and competitors are opaque object identities
(Python compares them by `==`, which for these objects is identity). -/
structure Segment where
  index : ℕ
  curve : ℚ
  sprites : List ℕ
  competitors : List ℕ
  clip : ℚ
  colour : Colours
  top : Line
  bottom : Line
  deriving DecidableEq

/-- Python 2 `round` as used on the screen coordinates: round half away
from zero. -/
def pyRound (q : ℚ) : ℤ :=
  if 0 ≤ q then ⌊q + 1/2⌋ else ⌈q - 1/2⌉

/-- The line `Segment.__initialize_line`: world `y` is the given elevation,
world `z` is `height * SEGMENT_HEIGHT`; `camera`/`screen` start empty. -/
def initializeLine (c : Consts) (y : ℚ) (height : ℕ) : Line :=
  { world := { x := none, y := y, z := (height : ℚ) * c.SEGMENT_HEIGHT }
    camera := none
    screen := none }

/-- The constructor `Segment.__init__(palette, index, curve, start_y, end_y)`
with the palette lookup `s.COLOURS[palette]` already resolved to `colour`. -/
def mkSegment (c : Consts) (colour : Colours) (index : ℕ) (curve : ℚ)
    (start_y end_y : ℚ) : Segment :=
  { index := index
    curve := curve
    sprites := []
    competitors := []
    clip := 0
    colour := colour
    top := initializeLine c end_y (index + 1)
    bottom := initializeLine c start_y index }

/-- The perspective scale assignment `screen.s = CAMERA_DEPTH / camera.z`. -/
def screenScale (c : Consts) (z : ℚ) : ℚ :=
  c.CAMERA_DEPTH / z

/-- The body of `Segment.__project_line` on one line: `width`/`height` are
the Python 2 integer halvings `DIMENSIONS[i] / 2`; the division
`CAMERA_DEPTH / camera.z` raises `ZeroDivisionError` when `camera.z = 0`
(the `none` branch), leaving no screen values stored. -/
def projectLine (c : Consts) (p : Line) (camera_x camera_z player_y : ℚ) :
    Option Line :=
  let width : ℚ := (c.DIMENSIONS.1 / 2 : ℕ)
  let height : ℚ := (c.DIMENSIONS.2 / 2 : ℕ)
  let cx : ℚ := p.world.x.getD 0 - camera_x
  let cy : ℚ := p.world.y - (c.CAMERA_HEIGHT + player_y)
  let cz : ℚ := p.world.z - camera_z
  if cz = 0 then none
  else
    let ss : ℚ := screenScale c cz
    some { p with
            camera := some { x := cx, y := cy, z := cz }
            screen := some { s := ss
                             x := pyRound (width + ss * cx * width)
                             y := pyRound (height + ss * cy * height)
                             w := pyRound (ss * c.ROAD_WIDTH * width) } }

/-- `Segment.project(camera_x, curve, curve_delta, position, player_y)`:
projects `top` with horizontal offset `camera_x - curve - curve_delta` and
then `bottom` with offset `camera_x - curve`, both at camera depth
`position`.  If either line's depth is zero the Python raises mid-way
(`none`). -/
def project (c : Consts) (seg : Segment)
    (camera_x curve curve_delta position player_y : ℚ) : Option Segment :=
  match projectLine c seg.top (camera_x - curve - curve_delta) position player_y with
  | none => none
  | some top =>
    match projectLine c seg.bottom (camera_x - curve) position player_y with
    | none => none
    | some bottom => some { seg with top := top, bottom := bottom }

/-- `Segment.should_ignore(y_coverage)`: the short-circuit disjunction
`top.camera.z <= CAMERA_DEPTH or top.screen.y <= y_coverage or
bottom.screen.y >= top.screen.y`; reading a missing sub-dictionary raises
(`none`). -/
def should_ignore (c : Consts) (seg : Segment) (y_coverage : ℤ) : Option Bool :=
  match seg.top.camera with
  | none => none
  | some tc =>
    if tc.z ≤ c.CAMERA_DEPTH then some true
    else
      match seg.top.screen with
      | none => none
      | some ts =>
        if ts.y ≤ y_coverage then some true
        else
          match seg.bottom.screen with
          | none => none
          | some bs => some (decide (bs.y ≥ ts.y))

/-- A drawing primitive issued to pygame.  `rect` carries the fill flag the
code passes as `pygame.draw.rect`'s width argument (`0` = filled, `b > 0` =
outline of thickness `b`); polygon points are in screen coordinates. -/
inductive DrawCmd where
  | polygon (colour : Colour) (points : List (ℚ × ℚ)) : DrawCmd
  | segline (colour : Colour) (a b : ℚ × ℚ) : DrawCmd
  | rect (colour : Colour) (x y w h : ℤ) (border : ℕ) : DrawCmd
  deriving DecidableEq

/-- `Segment.render_grass(window)`: one `pygame.draw.rect` call at
`(0, DIMENSIONS[1] - top.screen.y, DIMENSIONS[0], top.screen.y -
bottom.screen.y)` in the palette grass colour, with width argument
`int(height <= 1)`.  Reading unprojected screen records raises (`none`). -/
def render_grass (c : Consts) (seg : Segment) : Option (List DrawCmd) :=
  match seg.top.screen, seg.bottom.screen with
  | some top, some bottom =>
    let height : ℤ := top.y - bottom.y
    let y : ℤ := (c.DIMENSIONS.2 : ℤ) - top.y
    some [DrawCmd.rect seg.colour.grass 0 y (c.DIMENSIONS.1 : ℤ) height
            (if height ≤ 1 then 1 else 0)]
  | _, _ => none

/-- The lane-separator loop at the end of `Segment.render_road`: when
`(index / RUMBLE_LENGTH) % 2 == 0` (Python 2 floor division on the integer
index) one trapezoid per interior separator, `lane` ranging over
`range(LANES - 1)`; otherwise nothing. -/
def laneSeparators (c : Consts) (colour : Colours) (index : ℕ)
    (top bottom : Screen) : List DrawCmd :=
  let y_top : ℚ := (c.DIMENSIONS.2 : ℚ) - top.y
  let y_bottom : ℚ := (c.DIMENSIONS.2 : ℚ) - bottom.y
  if (index / c.RUMBLE_LENGTH) % 2 = 0 then
    let top_line_width : ℚ := (top.w : ℚ) / ((c.LANES : ℚ) * 8)
    let bottom_line_width : ℚ := (bottom.w : ℚ) / ((c.LANES : ℚ) * 8)
    let step : ℚ := 1 / (c.LANES : ℚ)
    (List.range (c.LANES - 1)).map fun (lane : ℕ) =>
      let lane_percent : ℚ := step * ((lane : ℚ) + 1)
      let lane_bottom_w : ℚ := ((bottom.w : ℚ) * 2) * lane_percent
      let lane_top_w : ℚ := ((top.w : ℚ) * 2) * lane_percent
      let bottom_left : ℚ := (bottom.x : ℚ) - (bottom.w : ℚ) + lane_bottom_w
      let bottom_right : ℚ := bottom_left + bottom_line_width
      let top_left : ℚ := (top.x : ℚ) - (top.w : ℚ) + lane_top_w
      let top_right : ℚ := top_left + top_line_width
      DrawCmd.polygon colour.line
        [(bottom_left, y_bottom), (bottom_right, y_bottom),
         (top_right, y_top), (top_left, y_top)]
  else []

/-- The body of `Segment.render_road` after the screen-record lookups: the
road trapezoid, left footpath, left gutter, right footpath, right gutter
(in draw order), then the conditional lane separators. -/
def renderRoadCmds (c : Consts) (colour : Colours) (index : ℕ)
    (top bottom : Screen) : List DrawCmd :=
  let y_top : ℚ := (c.DIMENSIONS.2 : ℚ) - top.y
  let y_bottom : ℚ := (c.DIMENSIONS.2 : ℚ) - bottom.y
  let top_footpath_width : ℚ := (top.w : ℚ) / ((c.LANES : ℚ) / (28/10))
  let bottom_footpath_width : ℚ := (bottom.w : ℚ) / ((c.LANES : ℚ) / (28/10))
  [DrawCmd.polygon colour.road
     [((bottom.x : ℚ) - bottom.w, y_bottom), ((bottom.x : ℚ) + bottom.w, y_bottom),
      ((top.x : ℚ) + top.w, y_top), ((top.x : ℚ) - top.w, y_top)],
   DrawCmd.polygon colour.footpath
     [((bottom.x : ℚ) - bottom.w - bottom_footpath_width, y_bottom),
      ((bottom.x : ℚ) - bottom.w, y_bottom),
      ((top.x : ℚ) - top.w, y_top),
      ((top.x : ℚ) - top.w - top_footpath_width, y_top)],
   DrawCmd.segline c.gutter ((bottom.x : ℚ) - bottom.w, y_bottom)
     ((top.x : ℚ) - top.w, y_top),
   DrawCmd.polygon colour.footpath
     [((bottom.x : ℚ) + bottom.w + bottom_footpath_width, y_bottom),
      ((bottom.x : ℚ) + bottom.w, y_bottom),
      ((top.x : ℚ) + top.w, y_top),
      ((top.x : ℚ) + top.w + top_footpath_width, y_top)],
   DrawCmd.segline c.gutter ((bottom.x : ℚ) + bottom.w, y_bottom)
     ((top.x : ℚ) + top.w, y_top)]
  ++ laneSeparators c colour index top bottom

/-- `Segment.render_road(window)`: looks up both screen records (raising if
absent) and issues the draw calls of `renderRoadCmds`. -/
def render_road (c : Consts) (seg : Segment) : Option (List DrawCmd) :=
  match seg.top.screen, seg.bottom.screen with
  | some top, some bottom => some (renderRoadCmds c seg.colour seg.index top bottom)
  | _, _ => none

/-- Python's `list.remove(x)`: delete the first element equal to `x`; the
surrounding `try/except: pass` turns the `ValueError` on absence into a
no-op, so the absent case returns the list unchanged. -/
def removeFirst (l : List ℕ) (x : ℕ) : List ℕ :=
  match l with
  | [] => []
  | a :: rest => if a = x then rest else a :: removeFirst rest x

/-- `Segment.remove_sprite(sprite)`: `try: self.sprites.remove(sprite)
except: pass`. -/
def remove_sprite (seg : Segment) (sprite : ℕ) : Segment :=
  { seg with sprites := removeFirst seg.sprites sprite }

/-- Pixel `p` lies in the (half-open) rectangle at `(x, y)` of size
`w × h`. -/
def inRect (x y w h : ℤ) (p : ℤ × ℤ) : Prop :=
  x ≤ p.1 ∧ p.1 < x + w ∧ y ≤ p.2 ∧ p.2 < y + h

/-- Pixels painted by `pygame.draw.rect` with the given width argument:
`border = 0` fills the rectangle; `border > 0` paints only the outline ring
of that thickness (the rectangle minus the inset interior). -/
def rectCovers (x y w h : ℤ) (border : ℕ) (p : ℤ × ℤ) : Prop :=
  if border = 0 then inRect x y w h p
  else inRect x y w h p ∧
    ¬ inRect (x + border) (y + border) (w - 2 * border) (h - 2 * border) p

/-- The camera-space formulas as written in the specification (§4.1):
`camera = world_or_0 - (camera_x, CAMERA_HEIGHT + player_y, camera_z)`.
Stated separately from `projectLine` so the projection theorem compares the
code against the spec formulas. -/
def specCamera (c : Consts) (w : World) (camera_x camera_z player_y : ℚ) :
    Camera :=
  { x := w.x.getD 0 - camera_x
    y := w.y - (c.CAMERA_HEIGHT + player_y)
    z := w.z - camera_z }

/-- The screen-space formulas as written in the specification (§4.1), with
the half dimensions as the code computes them (Python 2 integer halving). -/
def specScreen (c : Consts) (cam : Camera) : Screen :=
  let half_width : ℚ := (c.DIMENSIONS.1 / 2 : ℕ)
  let half_height : ℚ := (c.DIMENSIONS.2 / 2 : ℕ)
  let ss : ℚ := c.CAMERA_DEPTH / cam.z
  { s := ss
    x := pyRound (half_width + ss * cam.x * half_width)
    y := pyRound (half_height + ss * cam.y * half_height)
    w := pyRound (ss * c.ROAD_WIDTH * half_width) }

/-- Demonstration constants: the values named by the spec's end-to-end
scenarios (`DIMENSIONS = (800, 600)`, `CAMERA_DEPTH = 0.84`,
`CAMERA_HEIGHT = 1000`, `ROAD_WIDTH = 2000`, `LANES = 4`,
`RUMBLE_LENGTH = 3`). -/
def cDemo : Consts :=
  { CAMERA_DEPTH := 21/25
    CAMERA_HEIGHT := 1000
    SEGMENT_HEIGHT := 200
    ROAD_WIDTH := 2000
    LANES := 4
    RUMBLE_LENGTH := 3
    DIMENSIONS := (800, 600)
    gutter := 9 }

/-- A demonstration palette. -/
def colDemo : Colours := { road := 1, grass := 2, footpath := 3, line := 4 }

/-- The segment of end-to-end scenario 1: `index = 0`, `curve = 0`,
`start_y = 0`, `end_y = 0`. -/
def segDemo : Segment := mkSegment cDemo colDemo 0 0 0 0

/-- The value of `segDemo` after `project(0, 0, 0, -1, 0)` (checked below):
`bottom.camera.z = 1`, `top.camera.z = 201`. -/
def segProj0 : Segment :=
  { index := 0, curve := 0, sprites := [], competitors := [], clip := 0
    colour := colDemo
    top := { world := { x := none, y := 0, z := 200 }
             camera := some { x := 0, y := -1000, z := 201 }
             screen := some { s := 7/1675, x := 400, y := -954, w := 3343 } }
    bottom := { world := { x := none, y := 0, z := 0 }
                camera := some { x := 0, y := -1000, z := 1 }
                screen := some { s := 21/25, x := 400, y := -251700, w := 672000 } } }

/-- The adjacent segment `index = 1` (same elevations) after the same
`project(0, 0, 0, -1, 0)`: its bottom line coincides with `segProj0`'s top
line. -/
def segProj1 : Segment :=
  { index := 1, curve := 0, sprites := [], competitors := [], clip := 0
    colour := colDemo
    top := { world := { x := none, y := 0, z := 400 }
             camera := some { x := 0, y := -1000, z := 401 }
             screen := some { s := 21/10025, x := 400, y := -328, w := 1676 } }
    bottom := { world := { x := none, y := 0, z := 200 }
                camera := some { x := 0, y := -1000, z := 201 }
                screen := some { s := 7/1675, x := 400, y := -954, w := 3343 } } }

/-- A demonstration segment with sprites attached (the compositor mutates
the public `sprites` list between frames); sprite `2` occurs twice. -/
def sprDemoSeg : Segment :=
  { mkSegment cDemo colDemo 0 0 0 0 with sprites := [1, 2, 2, 3] }

/-- A demonstration screen record for the road-rendering theorems. -/
def scrDemoTop : Screen := { s := 7/1675, x := 400, y := -954, w := 3343 }

/-- A second demonstration screen record. -/
def scrDemoBottom : Screen := { s := 21/25, x := 400, y := -251700, w := 672000 }

theorem removeFirst_of_not_mem {l : List ℕ} {x : ℕ} (h : x ∉ l) :
    removeFirst l x = l := by
  induction l with
  | nil => rfl
  | cons a rest ih =>
    simp only [List.mem_cons, not_or] at h
    have hax : ¬ a = x := fun e => h.1 e.symm
    simp only [removeFirst, if_neg hax, ih h.2]

theorem removeFirst_first_occurrence {l : List ℕ} {x : ℕ} (h : x ∈ l) :
    ∃ l1 l2, x ∉ l1 ∧ l = l1 ++ x :: l2 ∧ removeFirst l x = l1 ++ l2 := by
  induction l with
  | nil => cases h
  | cons a rest ih =>
    by_cases hax : a = x
    · exact ⟨[], rest, by simp, by simp [hax], by simp [removeFirst, hax]⟩
    · have hx : x ∈ rest := by
        rcases List.mem_cons.mp h with h | h
        · exact absurd h.symm hax
        · exact h
      obtain ⟨l1, l2, h1, h2, h3⟩ := ih hx
      refine ⟨a :: l1, l2, ?_, by simp [h2], by simp [removeFirst, hax, h3]⟩
      simp only [List.mem_cons, not_or]
      exact ⟨fun e : x = a => hax e.symm, h1⟩

theorem removeFirst_append_right {l1 l2 : List ℕ} {x : ℕ} (h : x ∉ l1) :
    removeFirst (l1 ++ x :: l2) x = l1 ++ l2 := by
  induction l1 with
  | nil => simp [removeFirst]
  | cons a rest ih =>
    simp only [List.mem_cons, not_or] at h
    have hax : ¬ a = x := fun e => h.1 e.symm
    simp only [List.cons_append, removeFirst, if_neg hax, List.append_eq, ih h.2]

/-- C2: after projection (all three sub-records populated), `should_ignore`
returns exactly the disjunction `top.camera.z <= CAMERA_DEPTH ∨
top.screen.y <= y_coverage ∨ bottom.screen.y >= top.screen.y`: `true` when
any disjunct holds and `false` when none does. -/
theorem should_ignore_spec (c : Consts) (seg : Segment) (y_coverage : ℤ)
    (tc : Camera) (ts bs : Screen)
    (hc : seg.top.camera = some tc) (ht : seg.top.screen = some ts)
    (hb : seg.bottom.screen = some bs) :
    should_ignore c seg y_coverage =
      some (decide (tc.z ≤ c.CAMERA_DEPTH ∨ ts.y ≤ y_coverage ∨ bs.y ≥ ts.y)) := by
  rw [should_ignore, hc, ht, hb]
  by_cases h1 : tc.z ≤ c.CAMERA_DEPTH <;>
    by_cases h2 : ts.y ≤ y_coverage <;>
      simp [h1, h2]

/-- Witness for C2 at the projected demonstration segment with the horizon
at `0`: the second disjunct holds (`-954 <= 0`), so the segment is
ignored. -/
theorem should_ignore_spec_witness :
    segProj0.top.camera = some { x := 0, y := -1000, z := 201 } ∧
    segProj0.top.screen = some { s := 7/1675, x := 400, y := -954, w := 3343 } ∧
    segProj0.bottom.screen =
      some { s := 21/25, x := 400, y := -251700, w := 672000 } ∧
    should_ignore cDemo segProj0 0 = some true := by
  refine ⟨rfl, rfl, rfl, ?_⟩
  rw [should_ignore_spec cDemo segProj0 0 _ _ _ rfl rfl rfl]
  norm_num [cDemo]

/-- C5: if either line of the segment would end up at camera depth zero
(`world.z - position = 0`), `project` raises `ZeroDivisionError` (`none`)
instead of returning normally with screen values. -/
theorem project_zero_depth (c : Consts) (seg : Segment)
    (camera_x curve curve_delta position player_y : ℚ)
    (h : seg.top.world.z - position = 0 ∨ seg.bottom.world.z - position = 0) :
    project c seg camera_x curve curve_delta position player_y = none := by
  rcases h with h | h
  · simp [project, projectLine, h]
  · by_cases ht : seg.top.world.z - position = 0
    · simp [project, projectLine, ht]
    · simp [project, projectLine, ht, h]

/-- Witness for C5: the demonstration segment at `position = 0` puts its
bottom line exactly at the camera plane (`world.z = 0`), and `project`
reports the error. -/
theorem project_zero_depth_witness :
    (segDemo.top.world.z - 0 = 0 ∨ segDemo.bottom.world.z - 0 = 0) ∧
    project cDemo segDemo 0 0 0 0 0 = none := by
  have h : segDemo.bottom.world.z - 0 = 0 := by
    norm_num [segDemo, mkSegment, initializeLine, cDemo]
  exact ⟨Or.inr h, project_zero_depth cDemo segDemo 0 0 0 0 0 (Or.inr h)⟩

/-- C8: the perspective scale `screen.s = CAMERA_DEPTH / camera.z` computed
by `__project_line` is strictly positive for positive depth and strictly
decreasing in the depth. -/
theorem screenScale_pos_strictAnti (c : Consts) (z1 z2 : ℚ)
    (hd : 0 < c.CAMERA_DEPTH) (h1 : 0 < z1) (h12 : z1 < z2) :
    0 < screenScale c z1 ∧ 0 < screenScale c z2 ∧
      screenScale c z2 < screenScale c z1 := by
  refine ⟨div_pos hd h1, div_pos hd (h1.trans h12), ?_⟩
  exact div_lt_div_of_pos_left hd h1 h12

/-- Witness for C8 at `CAMERA_DEPTH = 0.84`, depths `1 < 2`. -/
theorem screenScale_pos_strictAnti_witness :
    0 < cDemo.CAMERA_DEPTH ∧ (0 : ℚ) < 1 ∧ (1 : ℚ) < 2 ∧
    (0 < screenScale cDemo 1 ∧ 0 < screenScale cDemo 2 ∧
      screenScale cDemo 2 < screenScale cDemo 1) :=
  ⟨by norm_num [cDemo], by norm_num, by norm_num,
    screenScale_pos_strictAnti cDemo 1 2 (by norm_num [cDemo]) (by norm_num)
      (by norm_num)⟩

/-- C9: `remove_sprite` never raises: on an absent sprite it leaves the
collection exactly unchanged, and on a present sprite it removes (only) the
first occurrence. -/
theorem remove_sprite_spec (seg : Segment) (sprite : ℕ) :
    (sprite ∉ seg.sprites → remove_sprite seg sprite = seg) ∧
    (sprite ∈ seg.sprites →
      ∃ l1 l2, sprite ∉ l1 ∧ seg.sprites = l1 ++ sprite :: l2 ∧
        (remove_sprite seg sprite).sprites = l1 ++ l2) := by
  constructor
  · intro h
    simp [remove_sprite, removeFirst_of_not_mem h]
  · intro h
    obtain ⟨l1, l2, h1, h2, h3⟩ := removeFirst_first_occurrence h
    exact ⟨l1, l2, h1, h2, h3⟩

/-- Witness for C9 on the demonstration sprite list `[1, 2, 2, 3]`:
removing the absent sprite `5` is a no-op, removing the present sprite `3`
succeeds. -/
theorem remove_sprite_spec_witness :
    (5 ∉ sprDemoSeg.sprites ∧ remove_sprite sprDemoSeg 5 = sprDemoSeg) ∧
    (3 ∈ sprDemoSeg.sprites ∧
      ∃ l1 l2, 3 ∉ l1 ∧ sprDemoSeg.sprites = l1 ++ 3 :: l2 ∧
        (remove_sprite sprDemoSeg 3).sprites = l1 ++ l2) := by
  have h5 : 5 ∉ sprDemoSeg.sprites := by
    simp [sprDemoSeg, mkSegment]
  have h3 : 3 ∈ sprDemoSeg.sprites := by
    simp [sprDemoSeg, mkSegment]
  exact ⟨⟨h5, (remove_sprite_spec sprDemoSeg 5).1 h5⟩,
    ⟨h3, (remove_sprite_spec sprDemoSeg 3).2 h3⟩⟩

/-- C10: when the sprite list decomposes as `l1 ++ sprite :: l2` with the
sprite absent from `l1` (so the displayed occurrence is the earliest),
`remove_sprite` deletes exactly that occurrence: every element of `l1` and
`l2` — including further duplicates of the sprite in `l2` — stays in
place. -/
theorem remove_sprite_first_occurrence (seg : Segment) (sprite : ℕ)
    (l1 l2 : List ℕ) (h1 : sprite ∉ l1) (hs : seg.sprites = l1 ++ sprite :: l2) :
    (remove_sprite seg sprite).sprites = l1 ++ l2 := by
  simp [remove_sprite, hs, removeFirst_append_right h1]

/-- Witness for C10: sprite `2` occurs twice in `[1, 2, 2, 3]`; removal
deletes the earliest occurrence only, leaving `[1, 2, 3]`. -/
theorem remove_sprite_first_occurrence_witness :
    2 ∉ [1] ∧ sprDemoSeg.sprites = [1] ++ 2 :: [2, 3] ∧
    (remove_sprite sprDemoSeg 2).sprites = [1] ++ [2, 3] := by
  refine ⟨by decide, by simp [sprDemoSeg, mkSegment], ?_⟩
  exact remove_sprite_first_occurrence sprDemoSeg 2 [1] [2, 3] (by decide)
    (by simp [sprDemoSeg, mkSegment])


theorem projectLine_eval (c : Consts) (p : Line) (camera_x camera_z player_y : ℚ)
    (hz : p.world.z - camera_z ≠ 0) :
    projectLine c p camera_x camera_z player_y =
      some { p with
        camera := some (specCamera c p.world camera_x camera_z player_y)
        screen := some (specScreen c
          (specCamera c p.world camera_x camera_z player_y)) } := by
  simp only [projectLine, if_neg hz]
  rfl

/-- C1: with both lines at non-zero camera depth, `project` succeeds and
stores exactly the spec formulas on each line — the top line with
horizontal offset `camera_x - curve - curve_delta`, the bottom line with
`camera_x - curve`, both at camera depth `position` — and leaves every
other part of the segment unchanged. -/
theorem project_spec (c : Consts) (seg : Segment)
    (camera_x curve curve_delta position player_y : ℚ)
    (ht : seg.top.world.z - position ≠ 0)
    (hb : seg.bottom.world.z - position ≠ 0) :
    ∃ s, project c seg camera_x curve curve_delta position player_y = some s ∧
      s.top.camera = some (specCamera c seg.top.world
        (camera_x - curve - curve_delta) position player_y) ∧
      s.top.screen = some (specScreen c (specCamera c seg.top.world
        (camera_x - curve - curve_delta) position player_y)) ∧
      s.bottom.camera = some (specCamera c seg.bottom.world
        (camera_x - curve) position player_y) ∧
      s.bottom.screen = some (specScreen c (specCamera c seg.bottom.world
        (camera_x - curve) position player_y)) ∧
      s.top.world = seg.top.world ∧ s.bottom.world = seg.bottom.world ∧
      s.index = seg.index ∧ s.curve = seg.curve ∧ s.colour = seg.colour ∧
      s.sprites = seg.sprites ∧ s.competitors = seg.competitors ∧
      s.clip = seg.clip := by
  refine ⟨{ seg with
      top := { seg.top with
        camera := some (specCamera c seg.top.world
          (camera_x - curve - curve_delta) position player_y)
        screen := some (specScreen c (specCamera c seg.top.world
          (camera_x - curve - curve_delta) position player_y)) }
      bottom := { seg.bottom with
        camera := some (specCamera c seg.bottom.world
          (camera_x - curve) position player_y)
        screen := some (specScreen c (specCamera c seg.bottom.world
          (camera_x - curve) position player_y)) } },
    ?_, rfl, rfl, rfl, rfl, rfl, rfl, rfl, rfl, rfl, rfl, rfl, rfl⟩
  rw [project, projectLine_eval c seg.top _ _ _ ht,
    projectLine_eval c seg.bottom _ _ _ hb]

/-- Witness for C1 at end-to-end scenario 1 (`index = 0`, all arguments
zero except `position = -1`, placing the bottom line at depth 1). -/
theorem project_spec_witness :
    segDemo.top.world.z - (-1) ≠ 0 ∧ segDemo.bottom.world.z - (-1) ≠ 0 ∧
    ∃ s, project cDemo segDemo 0 0 0 (-1) 0 = some s ∧
      s.top.camera = some (specCamera cDemo segDemo.top.world (0 - 0 - 0) (-1) 0) ∧
      s.top.screen = some (specScreen cDemo
        (specCamera cDemo segDemo.top.world (0 - 0 - 0) (-1) 0)) ∧
      s.bottom.camera = some (specCamera cDemo segDemo.bottom.world (0 - 0) (-1) 0) ∧
      s.bottom.screen = some (specScreen cDemo
        (specCamera cDemo segDemo.bottom.world (0 - 0) (-1) 0)) ∧
      s.top.world = segDemo.top.world ∧ s.bottom.world = segDemo.bottom.world ∧
      s.index = segDemo.index ∧ s.curve = segDemo.curve ∧
      s.colour = segDemo.colour ∧ s.sprites = segDemo.sprites ∧
      s.competitors = segDemo.competitors ∧ s.clip = segDemo.clip := by
  have ht : segDemo.top.world.z - (-1) ≠ 0 := by
    norm_num [segDemo, mkSegment, initializeLine, cDemo]
  have hb : segDemo.bottom.world.z - (-1) ≠ 0 := by
    norm_num [segDemo, mkSegment, initializeLine, cDemo]
  exact ⟨ht, hb, project_spec cDemo segDemo 0 0 0 (-1) 0 ht hb⟩

theorem projectLine_idem (c : Consts) (p p' : Line) (cx cz py : ℚ)
    (h : projectLine c p cx cz py = some p') :
    projectLine c p' cx cz py = some p' := by
  by_cases hz : p.world.z - cz = 0
  · simp [projectLine, hz] at h
  · simp only [projectLine, if_neg hz] at h
    rw [Option.some_inj] at h
    subst h
    simp [projectLine, hz]

/-- C7: projection is idempotent — running `project` again with identical
arguments on an already-projected segment recomputes exactly the same
`camera`/`screen` values (projection reads only the immutable `world`
records). -/
theorem project_idempotent (c : Consts) (seg : Segment)
    (camera_x curve curve_delta position player_y : ℚ) (s : Segment)
    (h : project c seg camera_x curve curve_delta position player_y = some s) :
    project c s camera_x curve curve_delta position player_y = some s := by
  cases htop : projectLine c seg.top (camera_x - curve - curve_delta) position
      player_y with
  | none => simp [project, htop] at h
  | some t =>
    cases hbot : projectLine c seg.bottom (camera_x - curve) position player_y with
    | none => simp [project, htop, hbot] at h
    | some b =>
      simp only [project, htop, hbot, Option.some_inj] at h
      subst h
      have h1 := projectLine_idem c seg.top t _ _ _ htop
      have h2 := projectLine_idem c seg.bottom b _ _ _ hbot
      simp [project, h1, h2]

/-- Witness for C7: re-projecting the already-projected scenario-1 segment
reproduces it exactly. -/
theorem project_idempotent_witness :
    project cDemo segDemo 0 0 0 (-1) 0 = some segProj0 ∧
    project cDemo segProj0 0 0 0 (-1) 0 = some segProj0 := by
  have h : project cDemo segDemo 0 0 0 (-1) 0 = some segProj0 := by
    norm_num [project, projectLine, segDemo, segProj0, mkSegment, initializeLine,
      cDemo, colDemo, screenScale, pyRound]
    constructor <;> rw [Int.ceil_eq_iff] <;> norm_num
  exact ⟨h, project_idempotent cDemo segDemo 0 0 0 (-1) 0 segProj0 h⟩

/-- C6: two segments built with consecutive indices `i` and `i + 1`, the
first's `end_y` equal to the second's `start_y`, projected with identical
arguments and zero curvature (`curve = 0`, `curve_delta = 0`), share their
boundary: the first's projected `top` line equals the second's projected
`bottom` line (the constructor gives both `world.y = end_y` and
`world.z = (i + 1) * SEGMENT_HEIGHT`), and in particular the screen `x`
values agree. -/
theorem project_seam (c : Consts) (col col2 : Colours) (i : ℕ)
    (cu cu2 sy ey ey2 camera_x position player_y : ℚ) (s s2 : Segment)
    (h : project c (mkSegment c col i cu sy ey) camera_x 0 0 position player_y
      = some s)
    (h2 : project c (mkSegment c col2 (i + 1) cu2 ey ey2) camera_x 0 0 position
      player_y = some s2) :
    s.top = s2.bottom ∧
    ∀ ts bs, s.top.screen = some ts → s2.bottom.screen = some bs →
      ts.x = bs.x := by
  have key : s.top = s2.bottom := by
    cases htop : projectLine c (mkSegment c col i cu sy ey).top
        camera_x position player_y with
    | none => simp [project, htop] at h
    | some t =>
      cases hbot : projectLine c (mkSegment c col i cu sy ey).bottom
          camera_x position player_y with
      | none => simp [project, htop, hbot] at h
      | some b =>
        cases htop2 : projectLine c (mkSegment c col2 (i + 1) cu2 ey ey2).top
            camera_x position player_y with
        | none => simp [project, htop2] at h2
        | some t2 =>
          cases hbot2 : projectLine c
              (mkSegment c col2 (i + 1) cu2 ey ey2).bottom
              camera_x position player_y with
          | none => simp [project, htop2, hbot2] at h2
          | some b2 =>
            simp only [project, sub_zero, htop, hbot, Option.some_inj] at h
            simp only [project, sub_zero, htop2, hbot2, Option.some_inj] at h2
            subst h
            subst h2
            show t = b2
            rw [show (mkSegment c col i cu sy ey).top =
              initializeLine c ey (i + 1) from rfl] at htop
            rw [show (mkSegment c col2 (i + 1) cu2 ey ey2).bottom =
              initializeLine c ey (i + 1) from rfl] at hbot2
            exact Option.some_inj.mp (htop.symm.trans hbot2)
  refine ⟨key, fun ts bs hts hbs => ?_⟩
  rw [key, hbs, Option.some_inj] at hts
  rw [hts]

/-- Witness for C6: segments `0` and `1` of the demonstration track,
projected at `position = -1`, meet seamlessly. -/
theorem project_seam_witness :
    project cDemo (mkSegment cDemo colDemo 0 0 0 0) 0 0 0 (-1) 0
      = some segProj0 ∧
    project cDemo (mkSegment cDemo colDemo 1 0 0 0) 0 0 0 (-1) 0
      = some segProj1 ∧
    (segProj0.top = segProj1.bottom ∧
     ∀ ts bs, segProj0.top.screen = some ts → segProj1.bottom.screen = some bs →
       ts.x = bs.x) := by
  have h0 : project cDemo (mkSegment cDemo colDemo 0 0 0 0) 0 0 0 (-1) 0
      = some segProj0 := by
    norm_num [project, projectLine, mkSegment, initializeLine, cDemo, colDemo,
      segProj0, screenScale, pyRound]
    constructor <;> rw [Int.ceil_eq_iff] <;> norm_num
  have h1 : project cDemo (mkSegment cDemo colDemo 1 0 0 0) 0 0 0 (-1) 0
      = some segProj1 := by
    norm_num [project, projectLine, mkSegment, initializeLine, cDemo, colDemo,
      segProj1, screenScale, pyRound]
    constructor <;> rw [Int.ceil_eq_iff] <;> norm_num
  exact ⟨h0, h1,
    project_seam cDemo colDemo colDemo 0 0 0 0 0 0 0 (-1) 0 segProj0 segProj1
      h0 h1⟩

/-- C3: under sane settings (positive striping period, at least two lanes),
`render_road` draws exactly `LANES - 1` lane-separator trapezoids when
`(index / RUMBLE_LENGTH) % 2 == 0` and none otherwise, on top of its five
unconditional draws; with `LANES = 4`, `RUMBLE_LENGTH = 3` the separator
counts over indices `0..5` are `[3, 3, 3, 0, 0, 0]` — drawn exactly on
`{0, 1, 2}`, alternating every 3 indices. -/
theorem render_road_lane_count (c : Consts) (colour : Colours) (index : ℕ)
    (top bottom : Screen) (hr : 0 < c.RUMBLE_LENGTH) (hl : 2 ≤ c.LANES) :
    ((laneSeparators c colour index top bottom).length =
      if (index / c.RUMBLE_LENGTH) % 2 = 0 then c.LANES - 1 else 0) ∧
    (renderRoadCmds c colour index top bottom).length =
      5 + (laneSeparators c colour index top bottom).length ∧
    (List.range 6).map
        (fun i => (laneSeparators cDemo colour i top bottom).length) =
      [3, 3, 3, 0, 0, 0] := by
  refine ⟨?_, ?_, ?_⟩
  · by_cases hc : (index / c.RUMBLE_LENGTH) % 2 = 0
    · simp only [laneSeparators, if_pos hc, List.length_map, List.length_range]
    · simp only [laneSeparators, if_neg hc, List.length_nil]
  · simp only [renderRoadCmds, List.cons_append, List.nil_append,
      List.length_cons]
    omega
  · norm_num [laneSeparators, cDemo, List.range_succ]

/-- Witness for C3 at the demonstration settings and screen records. -/
theorem render_road_lane_count_witness :
    0 < cDemo.RUMBLE_LENGTH ∧ 2 ≤ cDemo.LANES ∧
    (((laneSeparators cDemo colDemo 1 scrDemoTop scrDemoBottom).length =
       if (1 / cDemo.RUMBLE_LENGTH) % 2 = 0 then cDemo.LANES - 1 else 0) ∧
     (renderRoadCmds cDemo colDemo 1 scrDemoTop scrDemoBottom).length =
       5 + (laneSeparators cDemo colDemo 1 scrDemoTop scrDemoBottom).length ∧
     (List.range 6).map
         (fun i => (laneSeparators cDemo colDemo i scrDemoTop scrDemoBottom).length) =
       [3, 3, 3, 0, 0, 0]) :=
  ⟨by decide, by decide,
    render_road_lane_count cDemo colDemo 1 scrDemoTop scrDemoBottom
      (by decide) (by decide)⟩

/-- C4: after projection, `render_grass` issues exactly one rectangle draw —
full screen width, top edge at `SCREEN_HEIGHT - top.screen.y`, height
`top.screen.y - bottom.screen.y`, in the palette grass colour — and the
painted pixel set always equals the full (solid) rectangle: the width-1
outline used when the height is at most 1 pixel covers such a rectangle
entirely. -/
theorem render_grass_spec (c : Consts) (seg : Segment) (top bottom : Screen)
    (ht : seg.top.screen = some top) (hb : seg.bottom.screen = some bottom) :
    render_grass c seg =
      some [DrawCmd.rect seg.colour.grass 0 ((c.DIMENSIONS.2 : ℤ) - top.y)
        (c.DIMENSIONS.1 : ℤ) (top.y - bottom.y)
        (if top.y - bottom.y ≤ 1 then 1 else 0)] ∧
    ∀ p : ℤ × ℤ,
      rectCovers 0 ((c.DIMENSIONS.2 : ℤ) - top.y) (c.DIMENSIONS.1 : ℤ)
          (top.y - bottom.y) (if top.y - bottom.y ≤ 1 then 1 else 0) p ↔
        inRect 0 ((c.DIMENSIONS.2 : ℤ) - top.y) (c.DIMENSIONS.1 : ℤ)
          (top.y - bottom.y) p := by
  constructor
  · simp [render_grass, ht, hb]
  · intro p
    by_cases hh : top.y - bottom.y ≤ 1
    · simp only [if_pos hh, rectCovers, inRect]
      norm_num
      omega
    · simp [rectCovers, hh]

/-- Witness for C4 at the projected demonstration segment. -/
theorem render_grass_spec_witness :
    segProj0.top.screen = some scrDemoTop ∧
    segProj0.bottom.screen = some scrDemoBottom ∧
    (render_grass cDemo segProj0 =
      some [DrawCmd.rect segProj0.colour.grass 0
        ((cDemo.DIMENSIONS.2 : ℤ) - scrDemoTop.y) (cDemo.DIMENSIONS.1 : ℤ)
        (scrDemoTop.y - scrDemoBottom.y)
        (if scrDemoTop.y - scrDemoBottom.y ≤ 1 then 1 else 0)] ∧
     ∀ p : ℤ × ℤ,
       rectCovers 0 ((cDemo.DIMENSIONS.2 : ℤ) - scrDemoTop.y)
           (cDemo.DIMENSIONS.1 : ℤ) (scrDemoTop.y - scrDemoBottom.y)
           (if scrDemoTop.y - scrDemoBottom.y ≤ 1 then 1 else 0) p ↔
         inRect 0 ((cDemo.DIMENSIONS.2 : ℤ) - scrDemoTop.y)
           (cDemo.DIMENSIONS.1 : ℤ) (scrDemoTop.y - scrDemoBottom.y) p) :=
  ⟨rfl, rfl, render_grass_spec cDemo segProj0 scrDemoTop scrDemoBottom rfl rfl⟩
